import Mathlib

/-!
Verification development for the foodgram backend (Django/DRF recipe-sharing
service).  Python strings are embedded as lists of characters (`PyStr`); each
embedded function mirrors one Python function or code path from the sources in
`src/backend`, restricted to the ASCII fragment of Python's Unicode string
predicates where noted.
-/

set_option maxRecDepth 4000

/-- A Python `str`, embedded as its list of characters. -/
abbrev PyStr := List Char

/-- Character list of a Lean string literal (used to write concrete Python strings). -/
def lit (s : String) : PyStr := s.data

namespace api.constants

/-! Constants from `src/backend/api/constants.py`. -/

def MIN_INGREDIENT_AMOUNT : Int := 1
def MAX_INGREDIENT_AMOUNT : Int := 32000
def MIN_COOKING_TIME : Int := 1
def MAX_COOKING_TIME : Int := 32000
def MIN_NAME_LENGTH : Nat := 2
def MAX_USERNAME_LENGTH : Nat := 150
def MIN_PASSWORD_LENGTH : Nat := 8

end api.constants

namespace recipes.constants

/-! Constants from `src/backend/recipes/constants.py` (note: a different
`MAX_COOKING_TIME` than the one in `api/constants.py`). -/

def MIN_COOKING_TIME : Int := 1
def MAX_COOKING_TIME : Int := 1440
def MIN_INGREDIENT_AMOUNT : Int := 1
def MAX_INGREDIENT_AMOUNT : Int := 32000

end recipes.constants

/-! ## Python string primitives (ASCII fragment)

These model the Python `str` methods used by `api/validators.py`.  They are
faithful on ASCII strings; Python's Unicode-aware behaviour on non-ASCII
characters is outside the modelled fragment. -/

/-- `str.isdigit()` (ASCII fragment): true iff nonempty and all characters are digits. -/
def pyIsDigit (s : PyStr) : Bool := !s.isEmpty && s.all Char.isDigit

/-- `str.lower()` (ASCII fragment). -/
def pyLower (s : PyStr) : PyStr := s.map Char.toLower

/-- `str.strip()` with no argument (ASCII whitespace fragment). -/
def pyStrip (s : PyStr) : PyStr :=
  ((s.dropWhile Char.isWhitespace).reverse.dropWhile Char.isWhitespace).reverse

/-- `str.replace(old_char, '')` for a single-character pattern: drop every occurrence. -/
def pyRemoveChar (x : Char) (s : PyStr) : PyStr := s.filter (fun c => c != x)

/-- `str.isalpha()` (ASCII fragment): nonempty and all characters alphabetic.
Python's `''.isalpha()` is `False`, hence the nonemptiness conjunct. -/
def pyIsAlpha (s : PyStr) : Bool := !s.isEmpty && s.all Char.isAlpha

/-- One step of `str.title()` (ASCII fragment): `prevCased` records whether the
previous character was cased; a cased character is uppercased after a non-cased
one and lowercased otherwise. -/
def pyTitleAux (prevCased : Bool) : PyStr → PyStr
  | [] => []
  | c :: cs =>
    if c.isAlpha then
      (if prevCased then c.toLower else c.toUpper) :: pyTitleAux true cs
    else
      c :: pyTitleAux false cs

/-- `str.title()` (ASCII fragment). -/
def pyTitle (s : PyStr) : PyStr := pyTitleAux false s

/-! ## `api/validators.py` -/

/-- Outcome of a DRF field validator: either the (possibly normalized) value,
or a `serializers.ValidationError` with its message. -/
inductive VRes where
  | ok (value : PyStr)
  | error (msg : PyStr)
deriving DecidableEq, Repr

/-- Whether a validator outcome is a success. -/
def VRes.isOk : VRes → Bool
  | .ok _ => true
  | .error _ => false

/-- `validate_password_strength` from `api/validators.py`: rejects all-digit
values, values shorter than `MIN_PASSWORD_LENGTH`, and values equal to their
own lowercasing; otherwise returns the value. -/
def validate_password_strength (value : PyStr) : VRes :=
  if pyIsDigit value then
    .error (lit "Пароль не может состоять только из цифр.")
  else if value.length < api.constants.MIN_PASSWORD_LENGTH then
    .error (lit "Пароль должен состоять минимум из 8 символов")
  else if pyLower value == value then
    .error (lit "Пароль должен содержать хотя бы одну заглавную букву.")
  else
    .ok value

/-- ASCII fragment of Python's regex class `\w`: alphanumerics and underscore. -/
def pyWordChar (c : Char) : Bool := c.isAlphanum || c == '_'

/-- The character class `[\w.@+-]` of the username regex in `api/validators.py`. -/
def usernameClassChar (c : Char) : Bool :=
  pyWordChar c || c == '.' || c == '@' || c == '+' || c == '-'

/-- `re.match(r'^[\w.@+-]+$', value)` viewed as a boolean (ASCII fragment).
Python's `$` (without `re.MULTILINE`) matches at the end of the string or just
before a newline that ends the string, so a single trailing `'\n'` is admitted. -/
def usernameRegexMatches (v : PyStr) : Bool :=
  (!v.isEmpty && v.all usernameClassChar) ||
  (v.getLast? == some '\n' && !v.dropLast.isEmpty && v.dropLast.all usernameClassChar)

/-- `validate_username_format` from `api/validators.py`: length check, then the
regex check, else returns the value. -/
def validate_username_format (value : PyStr) : VRes :=
  if value.length > api.constants.MAX_USERNAME_LENGTH then
    .error (lit "Username не может быть длиннее 150 символов.")
  else if !(usernameRegexMatches value) then
    .error (lit "Username может содержать только буквы, цифры и символы @/./+/-/_")
  else
    .ok value

/-- `validate_name_format` from `api/validators.py`: rejects values that strip
to empty, values shorter (before trimming) than `MIN_NAME_LENGTH`, and values
whose residue after deleting spaces and hyphens fails `isalpha()`; on success
returns `value.strip().title()`. -/
def validate_name_format (value : PyStr) : VRes :=
  if (pyStrip value).isEmpty then
    .error (lit "Поле не может быть пустым.")
  else if value.length < api.constants.MIN_NAME_LENGTH then
    .error (lit "Имя (фамилия) должно содержать минимум 2 символа.")
  else if !(pyIsAlpha (pyRemoveChar '-' (pyRemoveChar ' ' value))) then
    .error (lit "Имя может содержать только буквы, пробелы и дефис.")
  else
    .ok (pyTitle (pyStrip value))


/-! ## Claim-side predicates (written from the spec's wording, for comparison
with the embedded code) -/

/-- Spec wording for the password rule: length at least 8, not composed
entirely of digits, and containing a non-lowercase character. -/
def specPasswordAccepts (v : PyStr) : Bool :=
  decide (api.constants.MIN_PASSWORD_LENGTH ≤ v.length) && !pyIsDigit v &&
    v.any (fun c => !c.isLower)

/-- Spec wording for the username character set `[A-Za-z0-9.@+-_]`. -/
def specUsernameClassChar (c : Char) : Bool :=
  c.isUpper || c.isLower || c.isDigit ||
    c == '.' || c == '@' || c == '+' || c == '-' || c == '_'

/-- Spec wording for the username rule: length at most 150 and every character
drawn from `[A-Za-z0-9.@+-_]`, at least one character. -/
def specUsernameAccepts (v : PyStr) : Bool :=
  decide (v.length ≤ api.constants.MAX_USERNAME_LENGTH) &&
    !v.isEmpty && v.all specUsernameClassChar

/-- Spec wording for the person-name character set: letters, spaces and hyphens. -/
def specNameAllowedChar (c : Char) : Bool := c.isAlpha || c == ' ' || c == '-'

/-- Spec wording for the person-name rule: length at least 2, only
letters/spaces/hyphens, not all whitespace. -/
def specNameAccepts (v : PyStr) : Bool :=
  decide (api.constants.MIN_NAME_LENGTH ≤ v.length) &&
    v.all specNameAllowedChar && !(v.all Char.isWhitespace)

/-! ## Helper lemmas -/

/-- A list is fixed by `map f` exactly when `f` fixes each member. -/
theorem list_map_fixed_iff {α : Type} (f : α → α) :
    ∀ l : List α, l.map f = l ↔ ∀ c ∈ l, f c = c
  | [] => by simp
  | a :: l => by simp [list_map_fixed_iff f l]

/-- The ASCII `\w.@+-` class of the source regex coincides with the spec's
`[A-Za-z0-9.@+-_]` class. -/
theorem usernameClassChar_eq_spec (c : Char) :
    usernameClassChar c = specUsernameClassChar c := by
  simp only [usernameClassChar, specUsernameClassChar, pyWordChar,
    Char.isAlphanum, Char.isAlpha]
  cases c.isUpper <;> cases c.isLower <;> cases c.isDigit <;>
    simp [Bool.or_comm, Bool.or_assoc, Bool.or_left_comm]

/-- `pyStrip` returns the empty string exactly when every character is whitespace. -/
theorem pyStrip_eq_nil_iff (v : PyStr) :
    pyStrip v = [] ↔ ∀ c ∈ v, c.isWhitespace = true := by
  unfold pyStrip
  rw [List.reverse_eq_nil_iff, List.dropWhile_eq_nil_iff]
  constructor
  · intro h c hc
    rw [← List.takeWhile_append_dropWhile (p := Char.isWhitespace) (l := v)] at hc
    rcases List.mem_append.mp hc with h1 | h1
    · exact List.mem_takeWhile_imp h1
    · exact h c (List.mem_reverse.mpr h1)
  · intro h c hc
    exact h c (List.dropWhile_subset _ (List.mem_reverse.mp hc))

/-- An alphabetic character is not whitespace. -/
theorem isAlpha_not_whitespace {c : Char} (h : c.isAlpha = true) :
    c.isWhitespace = false := by
  by_contra hw
  rw [Bool.not_eq_false] at hw
  simp only [Char.isWhitespace, Bool.or_eq_true, decide_eq_true_eq] at hw
  rcases hw with (((h1 | h1) | h1) | h1) <;> subst h1 <;> exact absurd h (by decide)

/-! ## C5: password strength -/

/-- Success of `validate_password_strength` as a boolean combination of its
three checks. -/
theorem validate_password_strength_isOk (v : PyStr) :
    (validate_password_strength v).isOk =
      (!pyIsDigit v && decide (api.constants.MIN_PASSWORD_LENGTH ≤ v.length) &&
        !(pyLower v == v)) := by
  unfold validate_password_strength
  cases h1 : pyIsDigit v <;>
    by_cases h2 : v.length < api.constants.MIN_PASSWORD_LENGTH <;>
      cases h3 : (pyLower v == v) <;>
        simp [h1, h2, h3, VRes.isOk] <;> omega

/-- C5 counterexample: the string "abcd123!" has length 8, is not all-digit and
contains non-lowercase characters (the digits and '!'), so the claim accepts
it, but `validate_password_strength` rejects it: `value.lower() == value`
holds because the string contains no uppercase letter.  The claim's
"contains a non-lowercase character" is strictly weaker than the code's check. -/
theorem validate_password_strength_nonlowercase_counterexample :
    specPasswordAccepts (lit "abcd123!") = true ∧
    validate_password_strength (lit "abcd123!") =
      .error (lit "Пароль должен содержать хотя бы одну заглавную букву.") := by
  decide

/-- C5 (amended): `validate_password_strength` accepts a candidate password iff
its length is at least 8, it is not composed entirely of digits, and it
contains a character changed by lowercasing (an uppercase letter), rather than
merely a non-lowercase character. -/
theorem validate_password_strength_iff (v : PyStr) :
    (validate_password_strength v).isOk = true ↔
      pyIsDigit v = false ∧ api.constants.MIN_PASSWORD_LENGTH ≤ v.length ∧
        ∃ c ∈ v, c.toLower ≠ c := by
  rw [validate_password_strength_isOk]
  simp only [Bool.and_eq_true, Bool.not_eq_true', beq_eq_false_iff_ne, ne_eq,
    decide_eq_true_eq, pyLower]
  rw [list_map_fixed_iff]
  push_neg
  tauto

/-- C5 witness: the spec's example "Abcdefgh" is accepted, via the amended
characterization. -/
theorem validate_password_strength_iff_witness :
    (validate_password_strength (lit "Abcdefgh")).isOk = true :=
  (validate_password_strength_iff (lit "Abcdefgh")).mpr (by decide)

/-! ## C7: username format -/

/-- The username regex match as a propositional pattern over the spec's
character class. -/
theorem usernameRegexMatches_iff (v : PyStr) :
    usernameRegexMatches v = true ↔
      ((v ≠ [] ∧ ∀ c ∈ v, specUsernameClassChar c = true) ∨
       (v.getLast? = some '\n' ∧ v.dropLast ≠ [] ∧
         ∀ c ∈ v.dropLast, specUsernameClassChar c = true)) := by
  unfold usernameRegexMatches
  simp [usernameClassChar_eq_spec, List.isEmpty_iff, List.all_eq_true]
  tauto

/-- C7 counterexample: "abc\n" contains a character (the newline) outside the
pattern `[A-Za-z0-9.@+-_]`, so by the claim it must be rejected, yet
`validate_username_format` accepts it: Python's `$` in
`re.match(r'^[\w.@+-]+$', value)` also matches just before a newline that ends
the string. -/
theorem validate_username_format_newline_counterexample :
    validate_username_format (lit "abc\n") = .ok (lit "abc\n") ∧
    '\n' ∈ lit "abc\n" ∧ specUsernameClassChar '\n' = false ∧
    (lit "abc\n").length ≤ api.constants.MAX_USERNAME_LENGTH := by
  decide

/-- C7 (amended): `validate_username_format` accepts a candidate iff its length
is at most 150 and it consists of characters of `[A-Za-z0-9.@+-_]` (at least
one), optionally followed by one trailing newline — the extra newline case
being Python's `$` semantics.  (ASCII fragment; Python's `\w` additionally
admits non-ASCII word characters.) -/
theorem validate_username_format_iff (v : PyStr) :
    (validate_username_format v).isOk = true ↔
      (v.length ≤ api.constants.MAX_USERNAME_LENGTH ∧
       ((v ≠ [] ∧ ∀ c ∈ v, specUsernameClassChar c = true) ∨
        (v.getLast? = some '\n' ∧ v.dropLast ≠ [] ∧
          ∀ c ∈ v.dropLast, specUsernameClassChar c = true))) := by
  rw [← usernameRegexMatches_iff]
  unfold validate_username_format
  by_cases hl : v.length > api.constants.MAX_USERNAME_LENGTH
  · simp [hl, VRes.isOk]
    try omega
  · cases hm : usernameRegexMatches v <;> simp [hl, hm, VRes.isOk] <;> try omega

/-- C7 witness: "user.name_1@+-" is accepted, via the amended characterization. -/
theorem validate_username_format_iff_witness :
    (validate_username_format (lit "user.name_1@+-")).isOk = true :=
  (validate_username_format_iff (lit "user.name_1@+-")).mpr (by decide)

/-! ## C8: person-name format -/

/-- A character survives both `replace(' ','')` and `replace('-','')` and is
then required to be alphabetic exactly when it is in the spec's allowed class. -/
theorem nameAllowedChar_iff (c : Char) :
    ((((c != '-') && (c != ' ')) = true → c.isAlpha = true) ↔
      specNameAllowedChar c = true) := by
  by_cases h1 : c = ' '
  · subst h1
    simp [specNameAllowedChar]
  · by_cases h2 : c = '-'
    · subst h2
      simp [specNameAllowedChar]
    · simp [h1, h2, specNameAllowedChar]

/-- An alphabetic character is neither a space nor a hyphen. -/
theorem isAlpha_not_space_hyphen {c : Char} (h : c.isAlpha = true) :
    ((c != '-') && (c != ' ')) = true := by
  by_cases h1 : c = ' '
  · subst h1
    exact absurd h (by decide)
  · by_cases h2 : c = '-'
    · subst h2
      exact absurd h (by decide)
    · simp [h1, h2]

/-- The residue check `value.replace(' ','').replace('-','').isalpha()` of
`validate_name_format`, characterized over the original string: every
character allowed, and at least one letter present. -/
theorem residue_isAlpha_iff (v : PyStr) :
    pyIsAlpha (pyRemoveChar '-' (pyRemoveChar ' ' v)) = true ↔
      ((∀ c ∈ v, specNameAllowedChar c = true) ∧ ∃ c ∈ v, c.isAlpha = true) := by
  have hres : pyRemoveChar '-' (pyRemoveChar ' ' v) =
      v.filter (fun a => a != '-' && a != ' ') := by
    unfold pyRemoveChar
    rw [List.filter_filter]
  rw [pyIsAlpha, hres]
  rw [Bool.and_eq_true, Bool.not_eq_true', List.isEmpty_eq_false, Ne,
    List.filter_eq_nil_iff, List.all_eq_true]
  push_neg
  constructor
  · rintro ⟨⟨c, hc, hfc⟩, hall⟩
    refine ⟨fun d hd => (nameAllowedChar_iff d).mp
      (fun hfd => hall d (List.mem_filter.mpr ⟨hd, hfd⟩)), c, hc, ?_⟩
    exact hall c (List.mem_filter.mpr ⟨hc, by simpa using hfc⟩)
  · rintro ⟨hallowed, c, hc, hca⟩
    refine ⟨⟨c, hc, by simpa using isAlpha_not_space_hyphen hca⟩, fun d hd => ?_⟩
    rcases List.mem_filter.mp hd with ⟨hdv, hfd⟩
    exact (nameAllowedChar_iff d).mpr (hallowed d hdv) hfd

/-- Success of `validate_name_format` as a boolean combination of its checks. -/
theorem validate_name_format_isOk (v : PyStr) :
    (validate_name_format v).isOk =
      (!(pyStrip v).isEmpty && decide (api.constants.MIN_NAME_LENGTH ≤ v.length) &&
        pyIsAlpha (pyRemoveChar '-' (pyRemoveChar ' ' v))) := by
  unfold validate_name_format
  cases h1 : (pyStrip v).isEmpty <;>
    by_cases h2 : v.length < api.constants.MIN_NAME_LENGTH <;>
      cases h3 : pyIsAlpha (pyRemoveChar '-' (pyRemoveChar ' ' v)) <;>
        simp [h1, h2, h3, VRes.isOk] <;> omega

/-- On success, `validate_name_format` returns the trimmed, title-cased value. -/
theorem validate_name_format_ok_value {v : PyStr}
    (h : (validate_name_format v).isOk = true) :
    validate_name_format v = .ok (pyTitle (pyStrip v)) := by
  unfold validate_name_format at *
  by_cases h1 : (pyStrip v).isEmpty = true <;>
    by_cases h2 : v.length < api.constants.MIN_NAME_LENGTH <;>
      by_cases h3 : pyIsAlpha (pyRemoveChar '-' (pyRemoveChar ' ' v)) = true <;>
        simp_all [VRes.isOk]

/-- C8 counterexample: "--" has length 2, consists only of hyphens (allowed by
the claim's character set) and is not all whitespace, so the claim accepts it;
the code rejects it because removing spaces and hyphens leaves the empty
string, and Python's `''.isalpha()` is false. -/
theorem validate_name_format_hyphens_counterexample :
    specNameAccepts (lit "--") = true ∧
    validate_name_format (lit "--") =
      .error (lit "Имя может содержать только буквы, пробелы и дефис.") := by
  decide

/-- C8 (amended): `validate_name_format` succeeds — returning the trimmed,
title-cased value — iff the raw string has length at least 2, consists only of
letters, spaces and hyphens, and contains at least one letter (which also rules
out all-whitespace input). -/
theorem validate_name_format_iff (v : PyStr) :
    validate_name_format v = .ok (pyTitle (pyStrip v)) ↔
      (api.constants.MIN_NAME_LENGTH ≤ v.length ∧
       (∀ c ∈ v, specNameAllowedChar c = true) ∧ ∃ c ∈ v, c.isAlpha = true) := by
  constructor
  · intro h
    have hok : (validate_name_format v).isOk = true := by rw [h]; rfl
    rw [validate_name_format_isOk] at hok
    simp only [Bool.and_eq_true, decide_eq_true_eq] at hok
    rcases hok with ⟨⟨_, hlen⟩, hres⟩
    exact ⟨hlen, (residue_isAlpha_iff v).mp hres⟩
  · rintro ⟨hlen, hallowed, hex⟩
    apply validate_name_format_ok_value
    rw [validate_name_format_isOk]
    have hres := (residue_isAlpha_iff v).mpr ⟨hallowed, hex⟩
    have hstrip : (pyStrip v).isEmpty = false := by
      rw [Bool.eq_false_iff, Ne, List.isEmpty_iff, pyStrip_eq_nil_iff]
      rcases hex with ⟨c, hc, hca⟩
      intro hall
      exact absurd (hall c hc) (by rw [isAlpha_not_whitespace hca]; simp)
    simp [hstrip, hres, hlen]

/-- C8 witness: the spec's example — " john " validates and normalizes to
"John" — via the amended characterization. -/
theorem validate_name_format_iff_witness :
    validate_name_format (lit " john ") = .ok (lit "John") := by
  have h := (validate_name_format_iff (lit " john ")).mpr (by decide)
  rw [show pyTitle (pyStrip (lit " john ")) = lit "John" from by decide] at h
  exact h

/-! ## C3: cooking_time bounds -/

/-- The `cooking_time` field declared on `RecipeCreateUpdateSerializer`
(`api/serializers.py`): `serializers.IntegerField(min_value=MIN_COOKING_TIME)`
with NO `max_value`.  DRF validates an explicitly declared field only with the
arguments given at declaration, and `Model.save()` does not run
`full_clean()`, so the model-field validators below never run on API writes. -/
def serializer_cooking_time_valid (v : Int) : Bool :=
  api.constants.MIN_COOKING_TIME ≤ v

/-- The validators declared on `Recipe.cooking_time` in `recipes/models.py`:
`MinValueValidator(MIN_COOKING_TIME)` and `MaxValueValidator(MAX_COOKING_TIME)`
with the recipes-app constants 1 and 1440. -/
def model_cooking_time_valid (v : Int) : Bool :=
  recipes.constants.MIN_COOKING_TIME ≤ v && v ≤ recipes.constants.MAX_COOKING_TIME

/-- C3: recipe create/update accepts cooking_time 1441 — the serializer field
enforces no upper bound, contradicting the model's own declared validators
(bounded by 1440) and the claim's "accepted iff in [1, 1440]".  The lower
bound 1 is enforced. -/
theorem cooking_time_upper_bound_not_enforced :
    serializer_cooking_time_valid 1441 = true ∧
    model_cooking_time_valid 1441 = false ∧
    recipes.constants.MAX_COOKING_TIME = 1440 ∧
    serializer_cooking_time_valid 32001 = true ∧
    serializer_cooking_time_valid 0 = false ∧
    serializer_cooking_time_valid 1 = true := by
  decide

/-! ## C9: is_favorited / is_in_shopping_cart for unauthenticated requests -/

/-- The requesting user attached to a DRF request. -/
structure RequestUser where
  id : Nat
  is_authenticated : Bool

/-- `RecipeSerializer.get_is_favorited` (`api/serializers.py`): false when the
serializer context has no request or the requester is unauthenticated,
otherwise an existence query on the Favorite relation (pairs of user id and
recipe id). -/
def get_is_favorited (request : Option RequestUser)
    (favorites : List (Nat × Nat)) (recipe : Nat) : Bool :=
  match request with
  | none => false
  | some u =>
    if !u.is_authenticated then false
    else favorites.any (fun p => p.1 == u.id && p.2 == recipe)

/-- `RecipeSerializer.get_is_in_shopping_cart` (`api/serializers.py`): same
shape over the ShoppingCart relation. -/
def get_is_in_shopping_cart (request : Option RequestUser)
    (shopping_cart : List (Nat × Nat)) (recipe : Nat) : Bool :=
  match request with
  | none => false
  | some u =>
    if !u.is_authenticated then false
    else shopping_cart.any (fun p => p.1 == u.id && p.2 == recipe)

/-- C9: for every recipe and every Favorite/ShoppingCart store state, an absent
request context or an unauthenticated requester makes both computed flags
false, regardless of the relations' contents. -/
theorem unauthenticated_flags_false (favorites carts : List (Nat × Nat))
    (recipe u : Nat) :
    get_is_favorited none favorites recipe = false ∧
    get_is_in_shopping_cart none carts recipe = false ∧
    get_is_favorited (some ⟨u, false⟩) favorites recipe = false ∧
    get_is_in_shopping_cart (some ⟨u, false⟩) carts recipe = false :=
  ⟨rfl, rfl, rfl, rfl⟩

/-- C9 witness: even when the relation does contain the (user, recipe) pair,
the flags are false for an unauthenticated requester. -/
theorem unauthenticated_flags_false_witness :
    get_is_favorited (some ⟨1, false⟩) [(1, 5)] 5 = false ∧
    get_is_in_shopping_cart (some ⟨1, false⟩) [(1, 5)] 5 = false :=
  ⟨(unauthenticated_flags_false [(1, 5)] [(1, 5)] 5 1).2.2.1,
   (unauthenticated_flags_false [(1, 5)] [(1, 5)] 5 1).2.2.2⟩

/-! ## C4: favorite / shopping-cart toggle endpoints -/

/-- A user–recipe presence relation (the Favorite or ShoppingCart rows). -/
abbrev PairRel := List (Nat × Nat)

/-- Django's `Model.objects.get_or_create`: the unchanged relation and
`created = false` when the row exists, else the relation with the row
inserted and `created = true`. -/
def get_or_create (rel : PairRel) (p : Nat × Nat) : PairRel × Bool :=
  if p ∈ rel then (rel, false) else (rel ++ [p], true)

/-- POST branch of `RecipeViewSet.favorite` (`api/views.py`): `get_or_create`,
then HTTP 400 when the row already existed, else 201. -/
def favorite_post (rel : PairRel) (u r : Nat) : PairRel × Nat :=
  let res := get_or_create rel (u, r)
  if !res.2 then (res.1, 400) else (res.1, 201)

/-- DELETE branch of `RecipeViewSet.favorite`: delete the matching row and
return 204, or 400 when `Favorite.DoesNotExist`. -/
def favorite_delete (rel : PairRel) (u r : Nat) : PairRel × Nat :=
  if (u, r) ∈ rel then (rel.filter (fun q => q != (u, r)), 204) else (rel, 400)

/-- POST branch of `RecipeViewSet.shopping_cart` (`api/views.py`), same shape
as `favorite_post` (the source duplicates the logic). -/
def shopping_cart_post (rel : PairRel) (u r : Nat) : PairRel × Nat :=
  let res := get_or_create rel (u, r)
  if !res.2 then (res.1, 400) else (res.1, 201)

/-- DELETE branch of `RecipeViewSet.shopping_cart`. -/
def shopping_cart_delete (rel : PairRel) (u r : Nat) : PairRel × Nat :=
  if (u, r) ∈ rel then (rel.filter (fun q => q != (u, r)), 204) else (rel, 400)

/-- Status codes of the four-step sequence POST, POST, DELETE, DELETE against
one endpoint, starting from a given relation. -/
def toggle_status_sequence (post del : PairRel → Nat → Nat → PairRel × Nat)
    (rel : PairRel) (u r : Nat) : List Nat :=
  let s1 := post rel u r
  let s2 := post s1.1 u r
  let s3 := del s2.1 u r
  let s4 := del s3.1 u r
  [s1.2, s2.2, s3.2, s4.2]

/-- Removing a row that is not present leaves the relation unchanged. -/
theorem filter_ne_eq_self_of_not_mem {rel : PairRel} {p : Nat × Nat}
    (h : p ∉ rel) : rel.filter (fun q => q != p) = rel := by
  rw [List.filter_eq_self]
  intro a ha
  simp only [bne_iff_ne, ne_eq]
  intro hap
  exact h (hap ▸ ha)

/-- C4: the favorite and shopping_cart endpoints implement the two-state
machine of the claim: POST inserts and answers 201 on ABSENT and answers 400
leaving the relation unchanged on PRESENT; DELETE removes and answers 204 on
PRESENT and answers 400 leaving the relation unchanged on ABSENT; and the
sequence POST, POST, DELETE, DELETE from ABSENT yields 201, 400, 204, 400. -/
theorem favorite_shopping_cart_state_machine (rel : PairRel) (u r : Nat) :
    ((u, r) ∉ rel →
      favorite_post rel u r = (rel ++ [(u, r)], 201) ∧
      shopping_cart_post rel u r = (rel ++ [(u, r)], 201)) ∧
    ((u, r) ∈ rel →
      favorite_post rel u r = (rel, 400) ∧
      shopping_cart_post rel u r = (rel, 400)) ∧
    ((u, r) ∈ rel →
      favorite_delete rel u r = (rel.filter (fun q => q != (u, r)), 204) ∧
      shopping_cart_delete rel u r = (rel.filter (fun q => q != (u, r)), 204)) ∧
    ((u, r) ∉ rel →
      favorite_delete rel u r = (rel, 400) ∧
      shopping_cart_delete rel u r = (rel, 400)) ∧
    ((u, r) ∉ rel →
      toggle_status_sequence favorite_post favorite_delete rel u r =
        [201, 400, 204, 400] ∧
      toggle_status_sequence shopping_cart_post shopping_cart_delete rel u r =
        [201, 400, 204, 400]) := by
  refine ⟨?_, ?_, ?_, ?_, ?_⟩
  · intro h
    constructor <;> simp [favorite_post, shopping_cart_post, get_or_create, h]
  · intro h
    constructor <;> simp [favorite_post, shopping_cart_post, get_or_create, h]
  · intro h
    constructor <;> simp [favorite_delete, shopping_cart_delete, h]
  · intro h
    constructor <;> simp [favorite_delete, shopping_cart_delete, h]
  · intro h
    have hmem : (u, r) ∈ rel ++ [(u, r)] := by simp
    have hfilter : (rel ++ [(u, r)]).filter (fun q => q != (u, r)) = rel := by
      rw [List.filter_append]
      simp [filter_ne_eq_self_of_not_mem h]
    constructor <;>
      simp [toggle_status_sequence, favorite_post, favorite_delete,
        shopping_cart_post, shopping_cart_delete, get_or_create, h, hmem, hfilter]

/-- C4 witness: the four-step sequence at a concrete store that already holds
an unrelated row. -/
theorem favorite_shopping_cart_state_machine_witness :
    toggle_status_sequence favorite_post favorite_delete [(9, 9)] 1 2 =
      [201, 400, 204, 400] ∧
    toggle_status_sequence shopping_cart_post shopping_cart_delete [(9, 9)] 1 2 =
      [201, 400, 204, 400] :=
  (favorite_shopping_cart_state_machine [(9, 9)] 1 2).2.2.2.2 (by decide)

/-! ## C6: self-subscription guard and Subscription invariant -/

/-- The HTTP verb of a subscribe request. -/
inductive HttpMethod where
  | post
  | delete
deriving DecidableEq, Repr

/-- `UserViewSet.subscribe` (`api/views.py`): the `user == author` check comes
first and answers 400 regardless of the method and of any existing rows; then
POST runs `get_or_create` on the (user, author) pair (400 when the row
existed, else 201) and DELETE deletes the row (204, or 400 on
`Subscription.DoesNotExist`). -/
def subscribe (rel : PairRel) (user author : Nat) (m : HttpMethod) : PairRel × Nat :=
  if user == author then (rel, 400)
  else
    match m with
    | .post =>
      let res := get_or_create rel (user, author)
      if !res.2 then (res.1, 400) else (res.1, 201)
    | .delete =>
      if (user, author) ∈ rel then
        (rel.filter (fun q => q != (user, author)), 204)
      else (rel, 400)

/-- Subscription relations reachable through the subscribe endpoint from the
empty store.  In the routed API (`api/urls.py` → `api/views.py`) the subscribe
action is the only writer of Subscription rows. -/
inductive SubscriptionReachable : PairRel → Prop where
  | init : SubscriptionReachable []
  | step (rel : PairRel) (user author : Nat) (m : HttpMethod) :
      SubscriptionReachable rel →
      SubscriptionReachable (subscribe rel user author m).1

/-- A self-subscribe request fails with 400 and leaves the relation unchanged,
whatever the method and state. -/
theorem subscribe_self_400 (rel : PairRel) (u : Nat) (m : HttpMethod) :
    subscribe rel u u m = (rel, 400) := by
  simp [subscribe]

/-- No reachable Subscription relation contains a row with user = author. -/
theorem subscription_no_self_rows (rel : PairRel)
    (h : SubscriptionReachable rel) : ∀ p ∈ rel, p.1 ≠ p.2 := by
  induction h with
  | init => simp
  | step rel u a m _ ih =>
    by_cases hua : u = a
    · rw [hua, subscribe_self_400]
      exact ih
    · cases m with
      | post =>
        by_cases hmem : (u, a) ∈ rel
        · have hst : (subscribe rel u a .post).1 = rel := by
            simp [subscribe, get_or_create, hua, hmem]
          rw [hst]
          exact ih
        · have hst : (subscribe rel u a .post).1 = rel ++ [(u, a)] := by
            simp [subscribe, get_or_create, hua, hmem]
          rw [hst]
          intro p hp
          rcases List.mem_append.mp hp with h1 | h1
          · exact ih p h1
          · have hpua : p = (u, a) := by simpa using h1
            rw [hpua]
            exact hua
      | delete =>
        by_cases hmem : (u, a) ∈ rel
        · have hst : (subscribe rel u a .delete).1 =
              rel.filter (fun q => q != (u, a)) := by
            simp [subscribe, hua, hmem]
          rw [hst]
          intro p hp
          exact ih p (List.mem_filter.mp hp).1
        · have hst : (subscribe rel u a .delete).1 = rel := by
            simp [subscribe, hua, hmem]
          rw [hst]
          exact ih

/-- C6: a subscribe request whose actor equals the target fails with 400 for
every state and method, before any existence check, leaving the relation
unchanged; consequently no reachable Subscription state contains a row with
user = author. -/
theorem subscribe_self_guard :
    (∀ (rel : PairRel) (u : Nat) (m : HttpMethod),
      subscribe rel u u m = (rel, 400)) ∧
    (∀ rel : PairRel, SubscriptionReachable rel → ∀ p ∈ rel, p.1 ≠ p.2) :=
  ⟨subscribe_self_400, subscription_no_self_rows⟩

/-- C6 witness: the guard at a concrete nonempty state, and the invariant at
the reachable state holding the row (1, 2). -/
theorem subscribe_self_guard_witness :
    subscribe [(1, 2)] 3 3 .post = ([(1, 2)], 400) ∧ (1, 2).1 ≠ (1, 2).2 := by
  constructor
  · exact subscribe_self_guard.1 [(1, 2)] 3 .post
  · have hstate : (subscribe [] 1 2 .post).1 = [(1, 2)] := by decide
    have hr : SubscriptionReachable [(1, 2)] := by
      rw [← hstate]
      exact SubscriptionReachable.step [] 1 2 .post SubscriptionReachable.init
    exact subscribe_self_guard.2 [(1, 2)] hr (1, 2) (by simp)

/-! ## C2: ingredient-id validation on recipe create/update -/

/-- HTTP verb of a recipe write request. -/
inductive WriteMethod where
  | post
  | put
  | patch
deriving DecidableEq, Repr

/-- One entry of the `ingredients` list of a recipe payload, as accepted by
`RecipeIngredientCreateSerializer` (`api/serializers.py`): `id` is a plain
`IntegerField()` with no validators, `amount` an `IntegerField` bounded by
`MIN_INGREDIENT_AMOUNT`/`MAX_INGREDIENT_AMOUNT`. -/
structure IngredientItem where
  id : Nat
  amount : Int
deriving DecidableEq, Repr

/-- The write shape of `RecipeCreateUpdateSerializer` restricted to the fields
relevant here; `none` models an absent key. -/
structure RecipePayload where
  ingredients : Option (List IngredientItem)
  tags : Option (List Nat)
deriving DecidableEq, Repr

/-- Field-level validation of one ingredient item: only the amount bounds.
There is no check that `id` is a catalog ingredient and no duplicate check. -/
def ingredient_item_valid (it : IngredientItem) : Bool :=
  api.constants.MIN_INGREDIENT_AMOUNT ≤ it.amount &&
    it.amount ≤ api.constants.MAX_INGREDIENT_AMOUNT

/-- Field-level (`to_internal_value`) validation: each ingredient item, and —
via `PrimaryKeyRelatedField(queryset=Tag.objects.all())` — existence of each
tag id (tags, unlike ingredients, do get an existence check). -/
def recipe_fields_valid (tagCatalog : List Nat) (p : RecipePayload) : Bool :=
  (p.ingredients.getD []).all ingredient_item_valid &&
    (p.tags.getD []).all (fun t => tagCatalog.contains t)

/-- DRF marks both declared fields required, so a create request must carry
them. -/
def required_fields_present (m : WriteMethod) (p : RecipePayload) : Bool :=
  match m with
  | .post => p.ingredients.isSome && p.tags.isSome
  | _ => true

/-- `RecipeCreateUpdateSerializer.validate_empty` (`api/serializers.py`):
on PUT/PATCH the keys must be present; a present-but-empty list is rejected. -/
def validate_empty (m : WriteMethod) (p : RecipePayload) : Bool :=
  (if m == .put || m == .patch then p.ingredients.isSome && p.tags.isSome
   else true) &&
  !(p.ingredients == some []) && !(p.tags == some [])

/-- The complete serializer validation run for a recipe write. -/
def recipe_validation_accepts (tagCatalog : List Nat) (m : WriteMethod)
    (p : RecipePayload) : Bool :=
  required_fields_present m p && recipe_fields_valid tagCatalog p &&
    validate_empty m p

/-- A database write performed by `RecipeCreateUpdateSerializer.create`. -/
inductive DbWrite where
  | recipeRow
  | tagLink (tag : Nat)
  | ingredientRow (ingredient : Nat)
deriving DecidableEq, Repr

/-- Outcome of a recipe create request: a field-scoped 400 before any write, a
successful creation, or an uncaught database `IntegrityError` (HTTP 500)
raised by `bulk_create` after earlier writes have been issued. -/
inductive CreateOutcome where
  | badRequest
  | created (writes : List DbWrite)
  | integrityError (writesBefore : List DbWrite)
deriving DecidableEq, Repr

/-- Whether the ingredients list repeats an id. -/
def has_duplicate_ids : List IngredientItem → Bool
  | [] => false
  | it :: rest => rest.any (fun o => o.id == it.id) || has_duplicate_ids rest

/-- `create` (`api/serializers.py`): after validation passes, the Recipe row is
inserted and tags set, then `create_ingredients` bulk-inserts the
RecipeIngredient rows.  A duplicate ingredient id violates the model's
`unique_together ('recipe', 'ingredient')` and an unknown id violates the
foreign-key constraint (`recipes/models.py`), so `bulk_create` raises
`IntegrityError` — uncaught — with the Recipe row already written. -/
def perform_create (ingredientCatalog tagCatalog : List Nat)
    (p : RecipePayload) : CreateOutcome :=
  if !(recipe_validation_accepts tagCatalog .post p) then .badRequest
  else
    let items := p.ingredients.getD []
    let tags := p.tags.getD []
    let before := DbWrite.recipeRow :: tags.map DbWrite.tagLink
    if has_duplicate_ids items ||
        items.any (fun it => !ingredientCatalog.contains it.id) then
      .integrityError before
    else
      .created (before ++ items.map (fun it => DbWrite.ingredientRow it.id))

/-- C2: serializer validation accepts a payload with duplicate ingredient ids
and one with an ingredient id outside the catalog; creation then ends in an
uncaught `IntegrityError` (HTTP 500) with the Recipe row already written — not
in the claimed field-scoped 400 before any write.  (Empty ingredient lists, by
contrast, are rejected by `validate_empty`.) -/
theorem ingredient_validation_gap :
    recipe_validation_accepts [1] .post
      ⟨some [⟨1, 200⟩, ⟨1, 100⟩], some [1]⟩ = true ∧
    perform_create [1, 2, 3] [1] ⟨some [⟨1, 200⟩, ⟨1, 100⟩], some [1]⟩ =
      .integrityError [.recipeRow, .tagLink 1] ∧
    recipe_validation_accepts [1] .post ⟨some [⟨999, 5⟩], some [1]⟩ = true ∧
    perform_create [1, 2, 3] [1] ⟨some [⟨999, 5⟩], some [1]⟩ =
      .integrityError [.recipeRow, .tagLink 1] ∧
    recipe_validation_accepts [1] .post ⟨some [], some [1]⟩ = false := by
  decide

/-! ## C1: shopping-list download -/

/-- An `Ingredient` row (`recipes/models.py`). -/
structure IngredientRec where
  name : PyStr
  measurement_unit : PyStr
deriving DecidableEq, Repr

/-- A `RecipeIngredient` row joined to its ingredient. -/
structure RecipeIngredientRec where
  ingredient : IngredientRec
  amount : Nat
deriving DecidableEq, Repr

/-- A `Recipe` row with its `RecipeIngredient` children, available through the
reverse accessor named by `related_name` on `RecipeIngredient.recipe`. -/
structure RecipeRec where
  recipe_ingredients : List RecipeIngredientRec
deriving DecidableEq, Repr

/-- The reverse accessor that exists on `Recipe`: `related_name` of
`RecipeIngredient.recipe` in `recipes/models.py`. -/
def MODEL_RELATED_NAME : String := "recipe_ingredients"

/-- The accessor `RecipeViewSet.download_shopping_cart` (`api/views.py`) asks
for, both in `prefetch_related('recipeingredient_set__ingredient')` and in
`recipe.recipeingredient_set.all()`.  Because `related_name` is set, Django
does not create this default-named accessor. -/
def VIEW_RELATED_NAME : String := "recipeingredient_set"

/-- Django attribute lookup of a reverse accessor on a Recipe instance:
`some rows` for the declared `related_name`, `none` (an `AttributeError`)
for any other name. -/
def recipe_rows (accessor : String) (r : RecipeRec) :
    Option (List RecipeIngredientRec) :=
  if accessor == MODEL_RELATED_NAME then some r.recipe_ingredients else none

/-- The dict accumulation of the view's loop body: add the amount to an
existing key (Python dicts keep insertion order on update) or append a new
key at the end. -/
def dict_add (d : List (PyStr × Nat)) (key : PyStr) (amount : Nat) :
    List (PyStr × Nat) :=
  if d.any (fun kv => kv.1 == key) then
    d.map (fun kv => if kv.1 == key then (kv.1, kv.2 + amount) else kv)
  else d ++ [(key, amount)]

/-- The aggregation key `f"{ingredient.name} ({ingredient.measurement_unit})"`
(exact string equality, no case folding). -/
def ingredient_key (i : IngredientRec) : PyStr :=
  i.name ++ lit " (" ++ i.measurement_unit ++ lit ")"

/-- The inner loop over one recipe's rows. -/
def accumulate_recipe (d : List (PyStr × Nat)) (rows : List RecipeIngredientRec) :
    List (PyStr × Nat) :=
  rows.foldl (fun d ri => dict_add d (ingredient_key ri.ingredient) ri.amount) d

/-- The view's outer loop: for each cart recipe, look up the requested reverse
accessor (failing with `AttributeError` on the first recipe when the name does
not exist — this is also when the invalid `prefetch_related` lookup would
raise) and fold its rows into the dict. -/
def download_loop (accessor : String) (cart : List RecipeRec)
    (d : List (PyStr × Nat)) : Except String (List (PyStr × Nat)) :=
  match cart with
  | [] => .ok d
  | r :: rest =>
    match recipe_rows accessor r with
    | none => .error "AttributeError: Cannot find 'recipeingredient_set' on Recipe object"
    | some rows => download_loop accessor rest (accumulate_recipe d rows)

/-- Single pass over all (recipe, ingredient, amount) triples of the cart,
keyed by name+unit — the aggregation the loop body performs when given the
accessor that exists. -/
def aggregate_cart (cart : List RecipeRec) : List (PyStr × Nat) :=
  cart.foldl (fun d r => accumulate_recipe d r.recipe_ingredients) []

/-- Rendering: header line, blank line, then one bullet per dict entry in
insertion order. -/
def render_shopping_list (d : List (PyStr × Nat)) : PyStr :=
  d.foldl (fun acc kv =>
    acc ++ lit "• " ++ kv.1 ++ lit ": " ++ (Nat.repr kv.2).data ++ lit "\n")
    (lit "Список покупок:\n\n")

/-- Outcome of the download endpoint: a text body, or an uncaught exception
(HTTP 500). -/
inductive HttpTextResult where
  | ok (body : PyStr)
  | serverError (exn : String)
deriving DecidableEq, Repr

/-- The reverse query name that exists on `Recipe` for the ShoppingCart
relation: `ShoppingCart.recipe` declares `related_name='in_shopping_cart'`
(`recipes/models.py`), and `related_query_name` defaults to `related_name`. -/
def SHOPPINGCART_QUERY_NAME : String := "in_shopping_cart"

/-- The reverse query name the view writes in
`Recipe.objects.filter(shoppingcart__user=request.user)` (`api/views.py`
line 462) — the default name, which Django replaces once `related_name` is
set. -/
def VIEW_CART_LOOKUP : String := "shoppingcart"

/-- The ShoppingCart rows as (user id, recipe row) pairs. -/
abbrev CartStore := List (Nat × RecipeRec)

/-- The recipes in one user's cart. -/
def cart_recipes (store : CartStore) (user : Nat) : List RecipeRec :=
  (store.filter (fun row => row.1 == user)).map (fun row => row.2)

/-- `Recipe.objects.filter(<lookup>__user=user)`: Django resolves keyword
lookups eagerly inside `.filter()`, so an unknown reverse query name raises
`FieldError` at the call itself, before the queryset is ever evaluated. -/
def fetch_cart_recipes (lookup : String) (store : CartStore) (user : Nat) :
    Except String (List RecipeRec) :=
  if lookup == SHOPPINGCART_QUERY_NAME then .ok (cart_recipes store user)
  else .error "FieldError: Cannot resolve keyword 'shoppingcart' into field"

/-- `RecipeViewSet.download_shopping_cart`: first the cart fetch (line 462),
then the aggregation loop over the fetched recipes. -/
def download_shopping_cart (store : CartStore) (user : Nat) : HttpTextResult :=
  match fetch_cart_recipes VIEW_CART_LOOKUP store user with
  | .error e => .serverError e
  | .ok cart =>
    match download_loop VIEW_RELATED_NAME cart [] with
    | .error e => .serverError e
    | .ok d => .ok (render_shopping_list d)

/-- The spec example: recipe A carrying (flour, 200 g). -/
def flour_g : IngredientRec := ⟨lit "flour", lit "g"⟩

/-- Recipe A of the spec's aggregation example. -/
def recipeA : RecipeRec := ⟨[⟨flour_g, 200⟩]⟩

/-- Recipe B of the spec's aggregation example, (flour, 100 g). -/
def recipeB : RecipeRec := ⟨[⟨flour_g, 100⟩]⟩

/-- Run with the accessor that actually exists on the model, the loop computes
exactly the single-pass aggregation. -/
theorem download_loop_model_accessor (cart : List RecipeRec) :
    ∀ d, download_loop MODEL_RELATED_NAME cart d =
      .ok (cart.foldl (fun d r => accumulate_recipe d r.recipe_ingredients) d) := by
  induction cart with
  | nil => intro d; rfl
  | cons r rest ih =>
    intro d
    simp [download_loop, recipe_rows, ih]

/-- C1: for every user and every store state — an empty cart included — the
download endpoint raises `FieldError` (HTTP 500) instead of returning a body:
the view filters on the reverse query name `shoppingcart`, but
`ShoppingCart.recipe` declares `related_name='in_shopping_cart'`, which is
also its reverse query name, and `.filter()` resolves lookups eagerly.  Even
were the fetch written with the name that exists, the loop would then raise
`AttributeError` for every nonempty cart, since it reads
`recipe.recipeingredient_set` while `RecipeIngredient.recipe` declares
`related_name='recipe_ingredients'`.  The aggregation itself, run with the
accessor that exists, returns exactly the claimed body — "Список покупок:"
followed by one bullet per first-seen key with summed amounts, e.g. a single
"flour (g): 300" line for the spec's two-recipe example. -/
theorem download_shopping_cart_broken_lookup (store : CartStore) (user : Nat)
    (cart : List RecipeRec) :
    download_shopping_cart store user =
      .serverError "FieldError: Cannot resolve keyword 'shoppingcart' into field" ∧
    fetch_cart_recipes SHOPPINGCART_QUERY_NAME store user =
      .ok (cart_recipes store user) ∧
    (cart ≠ [] → download_loop VIEW_RELATED_NAME cart [] =
      .error "AttributeError: Cannot find 'recipeingredient_set' on Recipe object") ∧
    download_loop MODEL_RELATED_NAME cart [] = .ok (aggregate_cart cart) ∧
    render_shopping_list (aggregate_cart [recipeA, recipeB]) =
      lit "Список покупок:\n\n• flour (g): 300\n" := by
  refine ⟨?_, ?_, ?_, download_loop_model_accessor cart [], by decide⟩
  · have hbeq : (VIEW_CART_LOOKUP == SHOPPINGCART_QUERY_NAME) = false := by decide
    simp [download_shopping_cart, fetch_cart_recipes, hbeq]
  · have hbeq : (SHOPPINGCART_QUERY_NAME == SHOPPINGCART_QUERY_NAME) = true := by decide
    simp [fetch_cart_recipes, hbeq]
  · intro hne
    match cart with
    | r :: rest => rfl

/-- C1 witness: the crash at a concrete store holding the spec's two-recipe
example cart for user 1, and the unreached accessor failure at that cart. -/
theorem download_shopping_cart_broken_lookup_witness :
    download_shopping_cart [(1, recipeA), (1, recipeB)] 1 =
      .serverError "FieldError: Cannot resolve keyword 'shoppingcart' into field" ∧
    download_loop VIEW_RELATED_NAME [recipeA, recipeB] [] =
      .error "AttributeError: Cannot find 'recipeingredient_set' on Recipe object" :=
  ⟨(download_shopping_cart_broken_lookup [(1, recipeA), (1, recipeB)] 1
      [recipeA, recipeB]).1,
   (download_shopping_cart_broken_lookup [(1, recipeA), (1, recipeB)] 1
      [recipeA, recipeB]).2.2.1 (by decide)⟩

/-! ## C10: Base64ImageField.to_internal_value -/

/-- The separator `';base64,'` on which the field splits a data URI. -/
def B64SEP : PyStr := lit ";base64,"

/-- The substring `'data:'` whose presence selects the data-URI branch. -/
def DATA_PREFIX : PyStr := lit "data:"

/-- Python's `sub in s` substring test (for nonempty `sub`). -/
def containsSub (sub : PyStr) : PyStr → Bool
  | [] => sub.isEmpty
  | c :: rest => sub.isPrefixOf (c :: rest) || containsSub sub rest

/-- Worker for Python's `str.split(';base64,')`: `cur` holds the reversed
current segment; each step consumes at least one character, so `fuel` equal to
the input length always suffices (the fuel-exhausted clause is never reached
then). -/
def pySplitSepAux : Nat → PyStr → PyStr → List PyStr
  | 0, cur, s => [cur.reverse ++ s]
  | fuel + 1, cur, s =>
    if B64SEP.isPrefixOf s then
      cur.reverse :: pySplitSepAux fuel [] (s.drop B64SEP.length)
    else
      match s with
      | [] => [cur.reverse]
      | c :: rest => pySplitSepAux fuel (c :: cur) rest

/-- Python's `data.split(';base64,')`. -/
def pySplitSep (s : PyStr) : List PyStr := pySplitSepAux s.length [] s

/-- A boolean prefix yields an append decomposition. -/
theorem isPrefixOf_exists_append :
    ∀ (l₁ l₂ : PyStr), l₁.isPrefixOf l₂ = true → ∃ t, l₂ = l₁ ++ t := by
  intro l₁
  induction l₁ with
  | nil => intro l₂ _; exact ⟨l₂, rfl⟩
  | cons a as ih =>
    intro l₂ hpre
    cases l₂ with
    | nil => simp [List.isPrefixOf] at hpre
    | cons b bs =>
      simp only [List.isPrefixOf, Bool.and_eq_true, beq_iff_eq] at hpre
      rcases hpre with ⟨hab, hrest⟩
      rcases ih bs hrest with ⟨t, ht⟩
      exact ⟨t, by rw [hab, ht]; rfl⟩

/-- A list is a boolean prefix of itself followed by anything. -/
theorem isPrefixOf_append_self :
    ∀ (l t : PyStr), l.isPrefixOf (l ++ t) = true := by
  intro l
  induction l with
  | nil => intro t; cases t <;> rfl
  | cons a as ih => intro t; simp [List.isPrefixOf, ih]

/-- Any `take` is a boolean prefix. -/
theorem take_isPrefixOf (n : Nat) (l : PyStr) :
    (l.take n).isPrefixOf l = true := by
  have h := isPrefixOf_append_self (l.take n) (l.drop n)
  rw [List.take_append_drop] at h
  exact h

/-- `';base64,'` has no border: none of its proper nonempty prefixes is one of
its suffixes, stated as the 7 concrete take/drop disagreements. -/
theorem sep_take_ne_drop :
    ∀ n, n < 8 → 1 ≤ n → ¬(B64SEP.take (8 - n) = B64SEP.drop n) := by
  decide

/-- If `h` is nonempty and does not contain the separator, then the separator
is not a prefix of `h ++ B64SEP ++ p`: an occurrence spanning the boundary
would force the separator to overlap itself, which `sep_take_ne_drop` rules
out. -/
theorem sep_not_prefix_shifted (h p : PyStr) (hne : h ≠ [])
    (hcont : containsSub B64SEP h = false) :
    B64SEP.isPrefixOf (h ++ B64SEP ++ p) = false := by
  by_contra hpre
  rw [Bool.not_eq_false] at hpre
  rw [List.append_assoc] at hpre
  rcases isPrefixOf_exists_append _ _ hpre with ⟨t, ht⟩
  by_cases hlen : B64SEP.length ≤ h.length
  · have hL : (h ++ (B64SEP ++ p)).take B64SEP.length = h.take B64SEP.length := by
      rw [List.take_append_eq_append_take, Nat.sub_eq_zero_of_le hlen,
        List.take_zero, List.append_nil]
    have h1 : h.take B64SEP.length = B64SEP := by
      rw [← hL, ht, List.take_left]
    have hpre2 : B64SEP.isPrefixOf h = true := by
      rw [← h1]
      exact take_isPrefixOf _ _
    cases h with
    | nil => exact hne rfl
    | cons c rest =>
      rw [containsSub] at hcont
      simp [hpre2] at hcont
  · push_neg at hlen
    have hh : 1 ≤ h.length := List.length_pos.mpr hne
    have hL : (h ++ (B64SEP ++ p)).take B64SEP.length
        = h ++ B64SEP.take (B64SEP.length - h.length) := by
      rw [List.take_append_eq_append_take,
        List.take_of_length_le (Nat.le_of_lt hlen)]
      congr 1
      rw [List.take_append_eq_append_take,
        show B64SEP.length - h.length - B64SEP.length = 0 by omega,
        List.take_zero, List.append_nil]
    have h1 : h ++ B64SEP.take (B64SEP.length - h.length) = B64SEP := by
      rw [← hL, ht, List.take_left]
    have hdrop := congrArg (List.drop h.length) h1
    rw [List.drop_left] at hdrop
    have hlen8 : B64SEP.length = 8 := by decide
    rw [hlen8] at hdrop hlen
    exact sep_take_ne_drop h.length hlen hh hdrop

/-- Splitting a string without the separator returns it whole. -/
theorem splitAux_no_sep :
    ∀ (fuel : Nat) (s cur : PyStr), containsSub B64SEP s = false →
      s.length ≤ fuel → pySplitSepAux fuel cur s = [cur.reverse ++ s] := by
  intro fuel
  induction fuel with
  | zero =>
    intro s cur _ _
    rfl
  | succ fuel ih =>
    intro s cur hcont hlen
    cases s with
    | nil =>
      simp [pySplitSepAux, show B64SEP.isPrefixOf [] = false from by decide]
    | cons c rest =>
      rw [containsSub, Bool.or_eq_false_iff] at hcont
      simp only [pySplitSepAux, hcont.1, Bool.false_eq_true, if_false]
      rw [ih rest (c :: cur) hcont.2 (by simp at hlen; omega)]
      simp

/-- Splitting `h ++ B64SEP ++ p` where neither part contains the separator
yields the two parts. -/
theorem splitAux_spec :
    ∀ (fuel : Nat) (h p cur : PyStr), containsSub B64SEP h = false →
      containsSub B64SEP p = false → (h ++ B64SEP ++ p).length ≤ fuel →
      pySplitSepAux fuel cur (h ++ B64SEP ++ p) = [cur.reverse ++ h, p] := by
  intro fuel
  induction fuel with
  | zero =>
    intro h p cur _ _ hlen
    exfalso
    have hsep : B64SEP.length = 8 := by decide
    simp [List.length_append, hsep] at hlen
  | succ fuel ih =>
    intro h p cur hch hcp hlen
    cases h with
    | nil =>
      simp only [List.nil_append]
      have hpre : B64SEP.isPrefixOf (B64SEP ++ p) = true := isPrefixOf_append_self _ _
      simp only [pySplitSepAux, hpre, if_true]
      rw [List.drop_left]
      rw [splitAux_no_sep fuel p [] hcp ?_]
      · simp
      · have hsep : B64SEP.length = 8 := by decide
        simp [List.length_append, hsep] at hlen
        omega
    | cons c h' =>
      have hne : (c :: h') ≠ ([] : PyStr) := by simp
      have hpre := sep_not_prefix_shifted (c :: h') p hne hch
      have hs : (c :: h') ++ B64SEP ++ p = c :: (h' ++ B64SEP ++ p) := by simp
      rw [hs] at hpre
      rw [hs]
      rw [containsSub, Bool.or_eq_false_iff] at hch
      simp only [pySplitSepAux, hpre, Bool.false_eq_true, if_false]
      rw [ih h' p (c :: cur) hch.2 hcp (by simp at hlen ⊢; omega)]
      simp

/-- `str.split(';base64,')` on a string with exactly one separator occurrence
returns the head and the tail. -/
theorem pySplitSep_two_parts (h p : PyStr)
    (hch : containsSub B64SEP h = false) (hcp : containsSub B64SEP p = false) :
    pySplitSep (h ++ B64SEP ++ p) = [h, p] := by
  unfold pySplitSep
  rw [splitAux_spec _ h p [] hch hcp (Nat.le_refl _)]
  simp

/-- A string that embeds `sub` contains it. -/
theorem containsSub_append_self (sub x y : PyStr) (hne : sub ≠ []) :
    containsSub sub (x ++ sub ++ y) = true := by
  induction x with
  | nil =>
    cases sub with
    | nil => exact absurd rfl hne
    | cons c s' =>
      have hp : (c :: s').isPrefixOf ((c :: s') ++ y) = true :=
        isPrefixOf_append_self _ _
      rw [List.cons_append] at hp
      simp only [List.nil_append, List.cons_append, containsSub]
      simp [hp]
  | cons c x' ih =>
    simp only [List.cons_append, List.append_assoc] at ih ⊢
    rw [containsSub]
    simp [ih]

/-- Outcome of `Base64ImageField.to_internal_value` (`api/serializers.py`) on
a string input: a decoded `ContentFile` handed to the DRF `ImageField` parent
(whose own image validation raises only `ValidationError`), a field-scoped
`ValidationError`, an exception escaping the method (HTTP 500), or the parent
call on a non-data-URI string.  The generated uuid filename is omitted
(nondeterministic); only the inferred extension is kept. -/
inductive FieldOutcome where
  | file (content : PyStr) (extension : String)
  | validationError (msg : PyStr)
  | uncaughtError (exn : String)
  | passthrough (data : PyStr)
deriving DecidableEq, Repr

/-- The base64 alphabet together with the padding character; with
`validate=False` (the default), `base64.b64decode` discards all other
characters before decoding. -/
def b64KeptChar (c : Char) : Bool :=
  c.isAlphanum || c == '+' || c == '/' || c == '='

/-- Model of `base64.b64decode(payload)` succeeding: after discarding
non-alphabet characters, the remaining length must be a multiple of four,
otherwise `binascii.Error` (incorrect padding) is raised.  Finer padding
placement rules of `a2b_base64` are not modelled; no theorem below depends on
them, since both decode outcomes are handled. -/
def b64decode_ok (payload : PyStr) : Bool :=
  (payload.filter b64KeptChar).length % 4 == 0

/-- Extension inference from the data-URI header: 'png' in header → png,
else 'gif' in header → gif, else jpg. -/
def file_extension_for (header : PyStr) : String :=
  if containsSub (lit "png") header then "png"
  else if containsSub (lit "gif") header then "gif"
  else "jpg"

/-- `Base64ImageField.to_internal_value` on a string: when `'data:' in data`
and `';base64,' in data`, Python executes
`header, data = data.split(';base64,')` — which raises an uncaught
`ValueError` unless the split has exactly two parts — and only the
`base64.b64decode` call is guarded by the `try/except` that converts decoding
failures to `ValidationError('Неверный формат base64')`. -/
def to_internal_value (data : PyStr) : FieldOutcome :=
  if containsSub DATA_PREFIX data && containsSub B64SEP data then
    match pySplitSep data with
    | [header, payload] =>
      if b64decode_ok payload then
        .file (payload.filter b64KeptChar) (file_extension_for header)
      else
        .validationError (lit "Неверный формат base64")
    | _ => .uncaughtError "ValueError: too many values to unpack"
  else
    .passthrough data

/-- C10 counterexample: the input `data:image/png;base64,x;base64,` is of the
form `data:<mime>;base64,<payload>` with payload `x;base64,`, which is not
valid base64 — yet `to_internal_value` raises an uncaught `ValueError` from
the two-name tuple unpacking of the three-part split, not the claimed
`ValidationError`. -/
theorem base64_multiple_sep_uncaught :
    to_internal_value (lit "data:image/png;base64,x;base64,") =
      .uncaughtError "ValueError: too many values to unpack" ∧
    lit "data:image/png;base64,x;base64," =
      lit "data:image/png" ++ B64SEP ++ lit "x;base64," ∧
    b64decode_ok (lit "x;base64,") = false := by
  decide

/-- C10 (amended): for every input `h ++ ';base64,' ++ p` containing `data:`
in which `';base64,'` occurs exactly once (neither `h` nor `p` contains it),
decoding is total: a payload that fails base64 decoding produces the
field-scoped `ValidationError('Неверный формат base64')`, and a payload that
decodes is handed to the parent `ImageField`; no exception escapes.  Inputs
with further `';base64,'` occurrences instead hit the unpacking `ValueError`
of the counterexample. -/
theorem to_internal_value_single_sep (h p : PyStr)
    (hch : containsSub B64SEP h = false) (hcp : containsSub B64SEP p = false)
    (hd : containsSub DATA_PREFIX (h ++ B64SEP ++ p) = true) :
    to_internal_value (h ++ B64SEP ++ p) =
      if b64decode_ok p then
        .file (p.filter b64KeptChar) (file_extension_for h)
      else .validationError (lit "Неверный формат base64") := by
  have hsep : containsSub B64SEP (h ++ B64SEP ++ p) = true :=
    containsSub_append_self _ _ _ (by decide)
  simp only [to_internal_value, hd, hsep, Bool.and_self, if_true]
  rw [pySplitSep_two_parts h p hch hcp]

/-- C10 witness: the malformed payload `A` (length 1 after filtering) yields
the ValidationError, via the amended theorem at concrete input. -/
theorem to_internal_value_single_sep_witness :
    to_internal_value (lit "data:image/png;base64,A") =
      .validationError (lit "Неверный формат base64") := by
  have he : lit "data:image/png;base64,A" =
      lit "data:image/png" ++ B64SEP ++ lit "A" := by decide
  rw [he, to_internal_value_single_sep (lit "data:image/png") (lit "A")
    (by decide) (by decide) (by decide)]
  decide
